import Mathlib

/-!
Verification of the level-partitioned, daily-rotating split output of the
zlogger repository (src/split_output.go), as a shallow embedding.

The embedding follows the Go source:

* `routeLevel` is the switch statement of `SplitOutput.Write`
  (split_output.go lines 158-172).
* `SplitOutput`, `closeFiles`, `openFiles`, `Write`, `Close`,
  `newSplitOutput` and `rotateStep` model the handle state machine.  A file
  handle is a `Handle` with an `isOpen` flag; a Go `io.Writer` slot holding
  a nil interface is `none`.  The outcomes of the `os.OpenFile` and
  `os.MkdirAll` calls are supplied by an environment (`OpenEnv`,
  `ConstructEnv`): `some id` is a freshly opened file, `none` is an error.
* `rotateSleep` is the next-midnight computation of `rotateDaily`
  (split_output.go lines 142-155), over an abstract `Location` supplying
  the instant-to-civil and civil-to-instant conversions that Go's
  `time.Now`/`time.Date` perform.
-/

namespace Zlogger

/-- zapcore.Level is an int8: Debug = -1, Info = 0, Warn = 1, Error = 2,
DPanic = 3, Panic = 4, Fatal = 5 (zapcore also defines InvalidLevel = 6;
every int8 value can be passed to `Write`).  Levels are embedded as `Int`
(the int8 range is stated where a claim needs it). -/
def debugLevel : Int := -1

def infoLevel : Int := 0

def warnLevel : Int := 1

def errorLevel : Int := 2

def dpanicLevel : Int := 3

def panicLevel : Int := 4

def fatalLevel : Int := 5

/-- The three output streams of a `SplitOutput`. -/
inductive LogStream : Type
  | info
  | warn
  | error
deriving DecidableEq, Repr

/-- The switch statement of `SplitOutput.Write` (split_output.go 162-171):
case Info; case Warn; case Error, DPanic, Panic, Fatal; default (which
catches Debug and every other value) goes to the info stream. -/
def routeLevel (lvl : Int) : LogStream :=
  if lvl = infoLevel then .info
  else if lvl = warnLevel then .warn
  else if lvl = errorLevel ∨ lvl = dpanicLevel ∨ lvl = panicLevel ∨ lvl = fatalLevel then .error
  else .info

/-- The total severity-to-stream mapping the code actually implements,
written as a band function: exactly warn to the warn stream; error through
fatal (2..5) to the error stream; everything else — all severities below
warn, and also every severity value above fatal (zap's invalid range) — to
the info stream via the default case. -/
def bandRoute (lvl : Int) : LogStream :=
  if lvl = warnLevel then .warn
  else if errorLevel ≤ lvl ∧ lvl ≤ fatalLevel then .error
  else .info

/-- An operating-system file handle (`*os.File`): its identity and whether
it has been closed.  `os.File.Close` on an already-closed file returns
`os.ErrClosed` and leaves the descriptor alone. -/
structure Handle : Type where
  id : Nat
  isOpen : Bool
deriving DecidableEq, Repr

/-- The `SplitOutput` struct (split_output.go 50-57).  Each `io.Writer`
field is `Option Handle`: `none` is Go's nil interface value (the zero
value the struct literal in `NewSplitOutput` leaves in place until
`openFiles` assigns the fields).  The mutex serializes `Write`, `openFiles`
and `Close`; the embedding works on the state inside the critical section,
so the lock itself has no counterpart here. -/
structure SplitOutput : Type where
  directory : String
  filePrefix : String
  infoOut : Option Handle
  warnOut : Option Handle
  errorOut : Option Handle
deriving DecidableEq, Repr

/-- `closer.Close()` as `closeFiles` applies it to one writer slot: a nil
interface fails the `io.Closer` type assertion and is skipped; a present
handle is marked closed (the slot keeps pointing at the closed handle —
the source never sets the fields to nil). -/
def closeSlot : Option Handle → Option Handle
  | none => none
  | some h => some { h with isOpen := false }

/-- `closeFiles` (split_output.go 129-139): best-effort close of the three
slots; the error each `Close()` returns is discarded (`_ =`). -/
def closeFiles (s : SplitOutput) : SplitOutput :=
  { s with
    infoOut := closeSlot s.infoOut
    warnOut := closeSlot s.warnOut
    errorOut := closeSlot s.errorOut }

/-- The error results `closeFiles` discards, in source order: `true` marks
a `Close()` call that returned an error (closing an already-closed handle
yields `os.ErrClosed`); skipped nil slots report nothing. -/
def closeFilesErrors (s : SplitOutput) : List Bool :=
  [s.infoOut, s.warnOut, s.errorOut].filterMap fun slot =>
    match slot with
    | none => none
    | some h => some (!h.isOpen)

/-- A local calendar date as `time.Now()` presents it in the host's local
timezone; `openFiles` stamps the filenames with it. -/
structure LocalDate : Type where
  year : Nat
  month : Nat
  day : Nat
deriving DecidableEq, Repr

def pad2 (n : Nat) : String :=
  if n < 10 then "0" ++ toString n else toString n

def pad4 (n : Nat) : String :=
  if n < 10 then "000" ++ toString n
  else if n < 100 then "00" ++ toString n
  else if n < 1000 then "0" ++ toString n
  else toString n

/-- Go's `Format("2006-01-02")`: the ISO 8601 calendar date, fields
zero-padded (year to four digits, month and day to two). -/
def formatDate (d : LocalDate) : String :=
  pad4 d.year ++ "-" ++ pad2 d.month ++ "-" ++ pad2 d.day

/-- `filepath.Join(dir, name)` for a directory argument that is already a
clean path without a trailing separator (the only shapes the claims
quantify over; `Join` additionally cleans dots and duplicate separators,
which is outside the model). -/
def filepathJoin (dir name : String) : String :=
  if dir = "" then name else dir ++ "/" ++ name

/-- Linux `os.O_WRONLY`. -/
def O_WRONLY : Nat := 0x1

/-- Linux `os.O_CREATE` (`syscall.O_CREAT`). -/
def O_CREATE : Nat := 0x40

/-- Linux `os.O_TRUNC`. -/
def O_TRUNC : Nat := 0x200

/-- Linux `os.O_APPEND`. -/
def O_APPEND : Nat := 0x400

/-- The flag word of every `os.OpenFile` call in `openFiles`:
`os.O_CREATE|os.O_APPEND|os.O_WRONLY`. -/
def openFlags : Nat := O_CREATE ||| O_APPEND ||| O_WRONLY

/-- The permission argument of every `os.OpenFile` call in `openFiles`:
octal 644. -/
def filePerm : Nat := 0o644

/-- The permission argument of the `os.MkdirAll` call in `NewSplitOutput`:
octal 755. -/
def mkdirPerm : Nat := 0o755

/-- One `os.OpenFile(name, flags, perm)` request issued by `openFiles`. -/
structure OpenRequest : Type where
  name : String
  flags : Nat
  perm : Nat
deriving DecidableEq, Repr

/-- The filesystem's answers to the three `os.OpenFile` calls of one
`openFiles` run, in source order: `some id` is a freshly opened file with
that identity, `none` an error. -/
structure OpenEnv : Type where
  infoRes : Option Nat
  warnRes : Option Nat
  errorRes : Option Nat
deriving DecidableEq, Repr

/-- `openFiles` (split_output.go 81-126), under the mutex: close the
current handles, stamp today's date, then open the info, warn and error
files in that order.  Returns the `os.OpenFile` requests it issued, the
resulting field state, and whether an error was returned.  On the
warn-step failure the source closes the freshly opened info file (already
assigned to `s.infoOut`, an alias); on the error-step failure it closes
the fresh info and warn files.  The failed slot keeps whatever
`closeFiles` left in it — the source never writes nil into a field. -/
def openFiles (s : SplitOutput) (d : LocalDate) (env : OpenEnv) :
    List OpenRequest × SplitOutput × Bool :=
  let s0 := closeFiles s
  let date := formatDate d
  let infoReq : OpenRequest :=
    ⟨filepathJoin s.directory (s.filePrefix ++ "-info-" ++ date ++ ".log"), openFlags, filePerm⟩
  match env.infoRes with
  | none => ([infoReq], s0, true)
  | some i =>
    let s1 := { s0 with infoOut := some ⟨i, true⟩ }
    let warnReq : OpenRequest :=
      ⟨filepathJoin s.directory (s.filePrefix ++ "-warn-" ++ date ++ ".log"), openFlags, filePerm⟩
    match env.warnRes with
    | none => ([infoReq, warnReq], { s1 with infoOut := closeSlot s1.infoOut }, true)
    | some w =>
      let s2 := { s1 with warnOut := some ⟨w, true⟩ }
      let errorReq : OpenRequest :=
        ⟨filepathJoin s.directory (s.filePrefix ++ "-error-" ++ date ++ ".log"), openFlags, filePerm⟩
      match env.errorRes with
      | none =>
        ([infoReq, warnReq, errorReq],
          { s2 with
            infoOut := closeSlot s2.infoOut
            warnOut := closeSlot s2.warnOut }, true)
      | some e => ([infoReq, warnReq, errorReq], { s2 with errorOut := some ⟨e, true⟩ }, false)

/-- The field state `openFiles` leaves behind. -/
def openFilesState (s : SplitOutput) (d : LocalDate) (env : OpenEnv) : SplitOutput :=
  (openFiles s d env).2.1

/-- Whether `openFiles` returned an error. -/
def openFilesErr (s : SplitOutput) (d : LocalDate) (env : OpenEnv) : Bool :=
  (openFiles s d env).2.2

/-- What one `Write` call can do, from the caller's point of view. -/
inductive WriteResult : Type
  | ok (n : Nat)
  | ioError
  | nilPanic
deriving DecidableEq, Repr

/-- A write against one slot: a nil interface writer panics in Go; a
closed `*os.File` returns `os.ErrClosed`; an open file accepts the payload
(disk-level write failures on open handles are outside the model — the
claims here only distinguish success, closed-handle errors and nil
panics). -/
def writeSlot (slot : Option Handle) (len : Nat) : WriteResult :=
  match slot with
  | none => .nilPanic
  | some h => if h.isOpen then .ok len else .ioError

/-- `SplitOutput.Write` (split_output.go 158-172), under the mutex: route
the severity through the switch (`routeLevel`) and issue one write against
the selected slot. -/
def Write (s : SplitOutput) (lvl : Int) (len : Nat) : WriteResult :=
  match routeLevel lvl with
  | .info => writeSlot s.infoOut len
  | .warn => writeSlot s.warnOut len
  | .error => writeSlot s.errorOut len

/-- `SplitOutput.Close` (split_output.go 175-180), under the mutex: run
`closeFiles` and return nil (`false` = no error), whatever the per-handle
close results were. -/
def Close (s : SplitOutput) : SplitOutput × Bool :=
  (closeFiles s, false)

/-- The environment of one `NewSplitOutput` run: whether `os.MkdirAll`
succeeds, and the answers to the three opens. -/
structure ConstructEnv : Type where
  mkdirOk : Bool
  openEnv : OpenEnv
deriving DecidableEq, Repr

/-- The `os.MkdirAll(directory, perm)` request `NewSplitOutput` issues. -/
structure MkdirRequest : Type where
  dir : String
  perm : Nat
deriving DecidableEq, Repr

/-- `NewSplitOutput` (split_output.go 60-78): create the directory tree,
build the struct with nil writer fields, run `openFiles`, and on any error
return nil instead of the struct.  The middle components expose the
requests issued and the internal field state of the attempt (in Go the
struct is unreachable garbage after a failed construction; the model keeps
it inspectable so leak claims can be stated).  On success the source also
starts the `rotateDaily` goroutine (`rotateStep` below is one of its
iterations). -/
def newSplitOutput (directory filePrefix : String) (d : LocalDate) (env : ConstructEnv) :
    MkdirRequest × List OpenRequest × SplitOutput × Option SplitOutput × Bool :=
  let mreq : MkdirRequest := ⟨directory, mkdirPerm⟩
  if env.mkdirOk then
    let so : SplitOutput :=
      { directory := directory, filePrefix := filePrefix
        infoOut := none, warnOut := none, errorOut := none }
    let res := openFiles so d env.openEnv
    if res.2.2 then (mreq, res.1, res.2.1, none, true)
    else (mreq, res.1, res.2.1, some res.2.1, false)
  else (mreq, [], ⟨directory, filePrefix, none, none, none⟩, none, true)

/-- What one iteration of `rotateDaily`'s loop body does after the sleep. -/
structure RotateOutcome : Type where
  state : SplitOutput
  stderrReport : Bool
  loopContinues : Bool
deriving DecidableEq, Repr

/-- One post-sleep iteration of `rotateDaily` (split_output.go 142-155):
attempt `openFiles` for the current date; if it errors, print the failure
to stderr; in every case fall through to the next `for` iteration — the
loop body has no return, break or cancellation check, so it always
continues. -/
def rotateStep (s : SplitOutput) (d : LocalDate) (env : OpenEnv) : RotateOutcome :=
  let res := openFiles s d env
  ⟨res.2.1, res.2.2, true⟩

/-- Whether a slot currently holds an open handle. -/
def slotOpen : Option Handle → Bool
  | none => false
  | some h => h.isOpen

/-- Whether any of the three slots holds an open handle. -/
def hasOpenHandle (s : SplitOutput) : Bool :=
  slotOpen s.infoOut || slotOpen s.warnOut || slotOpen s.errorOut

/-- Whether every slot is non-nil (holds a handle, open or closed) — the
shape every successfully constructed `SplitOutput` has from then on. -/
def allSome (s : SplitOutput) : Bool :=
  s.infoOut.isSome && s.warnOut.isSome && s.errorOut.isSome

/-- Minutes in 24 hours; the time model counts in whole minutes. -/
def minutesPerDay : Int := 1440

/-- A timezone as `rotateDaily` consumes it: `toCivil` is what
`time.Now()`'s year/month/day accessors see (local civil time, in minutes,
of an absolute instant); `toInstant` is what `time.Date(y, m, d, 0, 0, 0,
0, loc)` returns for a civil minute value (midnights only are ever passed
to it here). -/
structure Location : Type where
  toCivil : Int → Int
  toInstant : Int → Int

/-- The sleep duration one iteration of `rotateDaily` computes
(split_output.go 144-147): `next := now.Add(24 * time.Hour)`; truncate
`next` to midnight of its civil calendar day via `time.Date`; sleep for
`next.Sub(now)`. -/
def rotateSleep (loc : Location) (now : Int) : Int :=
  let next := now + minutesPerDay
  let civilNext := loc.toCivil next
  let midnight := civilNext.fdiv minutesPerDay * minutesPerDay
  loc.toInstant midnight - now

/-- The duration the spec asks for: from `now` to the next local midnight,
the start of the calendar day after the one `now` lies in. -/
def timeToNextLocalMidnight (loc : Location) (now : Int) : Int :=
  loc.toInstant ((loc.toCivil now).fdiv minutesPerDay * minutesPerDay + minutesPerDay) - now

/-- A fixed-offset timezone (offset `k` minutes east of UTC, no DST). -/
def fixedLoc (k : Int) : Location :=
  ⟨fun t => t + k, fun c => c - k⟩

/-- A timezone with one spring-forward transition: at absolute minute 1560
(02:00 local standard time on calendar day 1) the offset jumps from 0 to
+60 minutes, so day 1 is a 23-hour day.  Both conversions agree with Go's
`time` package at every civil time used below (all far from the skipped
hour, hence unambiguous). -/
def springForwardLoc : Location where
  toCivil := fun t => if t < 1560 then t else t + 60
  toInstant := fun c => if c < 1560 then c else c - 60

theorem closeSlot_isSome (o : Option Handle) : (closeSlot o).isSome = o.isSome := by
  cases o <;> rfl

theorem slotOpen_closeSlot (o : Option Handle) : slotOpen (closeSlot o) = false := by
  cases o <;> rfl

theorem closeSlot_idem (o : Option Handle) : closeSlot (closeSlot o) = closeSlot o := by
  cases o <;> rfl

theorem allSome_closeFiles (s : SplitOutput) : allSome (closeFiles s) = allSome s := by
  simp [allSome, closeFiles, closeSlot_isSome]

theorem hasOpenHandle_closeFiles (s : SplitOutput) : hasOpenHandle (closeFiles s) = false := by
  simp [hasOpenHandle, closeFiles, slotOpen_closeSlot]

theorem closeFiles_idem (s : SplitOutput) : closeFiles (closeFiles s) = closeFiles s := by
  simp [closeFiles, closeSlot_idem]

/-- After a failed `openFiles` run, no slot holds an open handle: the old
handles were closed up front, and every handle freshly opened during the
failed attempt was closed again before returning. -/
theorem hasOpenHandle_openFiles_fail (s : SplitOutput) (d : LocalDate) (env : OpenEnv)
    (h : (openFiles s d env).2.2 = true) :
    hasOpenHandle (openFiles s d env).2.1 = false := by
  rcases env with ⟨ir, wr, er⟩
  rcases ir with _ | i
  · simpa [openFiles] using hasOpenHandle_closeFiles s
  rcases wr with _ | w
  · simp [openFiles, hasOpenHandle, closeFiles, slotOpen_closeSlot]
  rcases er with _ | e
  · simp [openFiles, hasOpenHandle, closeFiles, slotOpen_closeSlot]
  · simp [openFiles] at h

/-- A failed `openFiles` run never writes nil into a slot: every slot that
held a handle before still holds one (closed) after. -/
theorem allSome_openFiles_fail (s : SplitOutput) (d : LocalDate) (env : OpenEnv)
    (hs : allSome s = true) (h : (openFiles s d env).2.2 = true) :
    allSome (openFiles s d env).2.1 = true := by
  rcases env with ⟨ir, wr, er⟩
  rcases ir with _ | i
  · simpa [openFiles, allSome_closeFiles] using hs
  rcases wr with _ | w
  · simp only [allSome, Bool.and_eq_true] at hs
    simp [openFiles, allSome, closeFiles, closeSlot_isSome, hs.1.2, hs.2]
  rcases er with _ | e
  · simp only [allSome, Bool.and_eq_true] at hs
    simp [openFiles, allSome, closeFiles, closeSlot_isSome, hs.2]
  · simp [openFiles] at h

/-- With all three slots populated, `Write` never hits a nil writer. -/
theorem Write_ne_nilPanic_of_allSome (s : SplitOutput) (hs : allSome s = true)
    (lvl : Int) (len : Nat) : Write s lvl len ≠ WriteResult.nilPanic := by
  simp only [allSome, Bool.and_eq_true, Option.isSome_iff_exists] at hs
  obtain ⟨⟨⟨hi, hio⟩, ⟨wi, hwo⟩⟩, ⟨ei, heo⟩⟩ := hs
  unfold Write
  cases routeLevel lvl <;> simp [writeSlot, hio, hwo, heo] <;> split <;> simp

/-- With all three slots populated but every handle closed, `Write`
returns the closed-handle I/O error at every severity. -/
theorem Write_ioError_of_closed (s : SplitOutput) (hs : allSome s = true)
    (hc : hasOpenHandle s = false) (lvl : Int) (len : Nat) :
    Write s lvl len = WriteResult.ioError := by
  simp only [allSome, Bool.and_eq_true, Option.isSome_iff_exists] at hs
  obtain ⟨⟨⟨hi, hio⟩, ⟨wi, hwo⟩⟩, ⟨ei, heo⟩⟩ := hs
  simp only [hasOpenHandle, hio, hwo, heo, slotOpen, Bool.or_eq_false_iff] at hc
  unfold Write
  cases routeLevel lvl <;> simp [writeSlot, hio, hwo, heo, hc.1.1, hc.1.2, hc.2]

/-- C1 counterexample: the claim routes "any higher severity value" than
error to the error stream, but the severity value 6 (above Fatal, within
int8 range) falls into the switch's default case and is written to the
info stream, not the error stream. -/
theorem routeLevel_above_fatal_not_error :
    errorLevel ≤ (6 : Int) ∧ (6 : Int) ≤ 127 ∧
      routeLevel 6 = LogStream.info ∧ routeLevel 6 ≠ LogStream.error := by
  refine ⟨by norm_num [errorLevel], by norm_num, ?_, ?_⟩ <;> decide

/-- C1 (amended): severity routing is total; severities strictly below
warn go to the info stream, exactly warn to the warn stream, error through
fatal to the error stream, and severity values above fatal fall to the
default case and go to the info stream.  Formally, the switch of
`SplitOutput.Write` computes exactly the band mapping `bandRoute`. -/
theorem routeLevel_eq_bandRoute : ∀ lvl : Int, routeLevel lvl = bandRoute lvl := by
  intro lvl
  unfold routeLevel bandRoute
  unfold infoLevel warnLevel errorLevel dpanicLevel panicLevel fatalLevel
  split_ifs <;> first | rfl | omega

/-- C2: when a reopen (`openFiles`) attempt on a fully populated
`SplitOutput` fails, the error is surfaced, no partially-open replacement
set is installed (no slot holds an open handle afterwards), and no nil
handle becomes reachable from a subsequent `Write` at any severity. -/
theorem openFiles_failure_no_nil_no_partial_open (s : SplitOutput) (d : LocalDate)
    (env : OpenEnv) (hs : allSome s = true) (herr : openFilesErr s d env = true) :
    allSome (openFilesState s d env) = true ∧
    hasOpenHandle (openFilesState s d env) = false ∧
    ∀ (lvl : Int) (len : Nat), Write (openFilesState s d env) lvl len ≠ WriteResult.nilPanic := by
  have h1 := allSome_openFiles_fail s d env hs herr
  have h2 := hasOpenHandle_openFiles_fail s d env herr
  exact ⟨h1, h2, fun lvl len => Write_ne_nilPanic_of_allSome _ h1 lvl len⟩

/-- Witness for C2 at a concrete reopen failure: the warn-file open fails
on a populated state; the error is returned, all slots stay populated and
closed, and a subsequent info-severity write does not hit a nil writer. -/
theorem openFiles_failure_no_nil_no_partial_open_witness :
    allSome ⟨"logs", "app", some ⟨0, true⟩, some ⟨1, true⟩, some ⟨2, true⟩⟩ = true ∧
    openFilesErr ⟨"logs", "app", some ⟨0, true⟩, some ⟨1, true⟩, some ⟨2, true⟩⟩
      ⟨2024, 3, 8⟩ ⟨some 3, none, none⟩ = true ∧
    Write (openFilesState ⟨"logs", "app", some ⟨0, true⟩, some ⟨1, true⟩, some ⟨2, true⟩⟩
      ⟨2024, 3, 8⟩ ⟨some 3, none, none⟩) infoLevel 5 ≠ WriteResult.nilPanic :=
  ⟨by decide, by decide,
    (openFiles_failure_no_nil_no_partial_open _ ⟨2024, 3, 8⟩ ⟨some 3, none, none⟩
      (by decide) (by decide)).2.2 infoLevel 5⟩

/-- C3 counterexample: after `Close` has completed, the next iteration of
the rotation loop still performs an `openFiles` attempt — with the
filesystem cooperating it succeeds and installs freshly opened handles,
and the loop continues; nothing in `Close` signals the scheduler. -/
theorem rotation_reopens_after_Close :
    hasOpenHandle (rotateStep
      (Close ⟨"logs", "app", some ⟨0, true⟩, some ⟨1, true⟩, some ⟨2, true⟩⟩).1
      ⟨2024, 3, 9⟩ ⟨some 3, some 4, some 5⟩).state = true ∧
    (rotateStep (Close ⟨"logs", "app", some ⟨0, true⟩, some ⟨1, true⟩, some ⟨2, true⟩⟩).1
      ⟨2024, 3, 9⟩ ⟨some 3, some 4, some 5⟩).loopContinues = true := by
  constructor <;> decide

/-- C3 (amended): `Close` closes the three handles but does not signal or
cancel the background rotation task; the rotation loop runs
unconditionally, and an iteration occurring after `Close` has returned
still performs its reopen attempt (here: a successful one, reopening
handles on every starting state). -/
theorem Close_does_not_cancel_rotation :
    ∀ (s : SplitOutput) (d : LocalDate) (i w e : Nat),
      (rotateStep (Close s).1 d ⟨some i, some w, some e⟩).loopContinues = true ∧
      hasOpenHandle (rotateStep (Close s).1 d ⟨some i, some w, some e⟩).state = true := by
  intro s d i w e
  constructor
  · rfl
  · simp [rotateStep, openFiles, hasOpenHandle, slotOpen]

/-- C4: every construction or reopen opens exactly the three files
`{directory}/{filePrefix}-{stream}-{YYYY-MM-DD}.log` for the streams info,
warn, error (date from the local calendar day, ISO 8601, zero-padded —
checked concretely on 2024-03-07), in create-if-absent append write-only
mode (O_CREATE and O_APPEND set, O_TRUNC not set) with permission 644
(owner read/write, group and others read-only), after `MkdirAll` created
the directory recursively with permission 755 (no group/other write). -/
theorem openFiles_names_flags_perms (s : SplitOutput) (d : LocalDate) (env : OpenEnv)
    (hdir : s.directory ≠ "") (hi : env.infoRes.isSome = true)
    (hw : env.warnRes.isSome = true) (he : env.errorRes.isSome = true) :
    (openFiles s d env).1 =
      [⟨s.directory ++ "/" ++ s.filePrefix ++ "-info-" ++ formatDate d ++ ".log",
        openFlags, filePerm⟩,
       ⟨s.directory ++ "/" ++ s.filePrefix ++ "-warn-" ++ formatDate d ++ ".log",
        openFlags, filePerm⟩,
       ⟨s.directory ++ "/" ++ s.filePrefix ++ "-error-" ++ formatDate d ++ ".log",
        openFlags, filePerm⟩] ∧
    openFlags &&& O_TRUNC = 0 ∧
    openFlags &&& O_CREATE = O_CREATE ∧
    openFlags &&& O_APPEND = O_APPEND ∧
    openFlags &&& O_WRONLY = O_WRONLY ∧
    filePerm &&& 0o700 = 0o600 ∧ filePerm &&& 0o070 = 0o040 ∧ filePerm &&& 0o007 = 0o004 ∧
    mkdirPerm &&& 0o022 = 0 ∧
    (newSplitOutput s.directory s.filePrefix d ⟨true, env⟩).1 = ⟨s.directory, mkdirPerm⟩ ∧
    formatDate ⟨2024, 3, 7⟩ = "2024-03-07" := by
  rcases env with ⟨ir, wr, er⟩
  rcases ir with _ | i
  · simp at hi
  rcases wr with _ | w
  · simp at hw
  rcases er with _ | e
  · simp at he
  refine ⟨?_, by decide, by decide, by decide, by decide, by decide, by decide, by decide,
    by decide, by simp [newSplitOutput]; split <;> rfl, by decide⟩
  simp [openFiles, filepathJoin, hdir, String.append_assoc]

/-- Witness for C4 at a concrete construction: directory "logs", file
prefix "app", local date 2024-03-07, all three opens succeeding. -/
theorem openFiles_names_flags_perms_witness :
    ("logs" : String) ≠ "" ∧
    (openFiles ⟨"logs", "app", none, none, none⟩ ⟨2024, 3, 7⟩ ⟨some 0, some 1, some 2⟩).1 =
      [⟨"logs/app-info-2024-03-07.log", openFlags, filePerm⟩,
       ⟨"logs/app-warn-2024-03-07.log", openFlags, filePerm⟩,
       ⟨"logs/app-error-2024-03-07.log", openFlags, filePerm⟩] :=
  ⟨by decide,
    ((openFiles_names_flags_perms ⟨"logs", "app", none, none, none⟩ ⟨2024, 3, 7⟩
      ⟨some 0, some 1, some 2⟩ (by decide) rfl rfl rfl).1).trans (by decide)⟩

/-- C5: when any of the three opens fails during construction, every
handle opened during that attempt has been closed before the error is
returned (starting from the all-nil struct, the attempt's internal state
holds no open handle), and `NewSplitOutput` returns nil plus the error —
no partially-initialized `SplitOutput` escapes. -/
theorem construction_failure_leaks_nothing (dir pfx : String) (d : LocalDate)
    (env : OpenEnv) (herr : openFilesErr ⟨dir, pfx, none, none, none⟩ d env = true) :
    hasOpenHandle (openFilesState ⟨dir, pfx, none, none, none⟩ d env) = false ∧
    (newSplitOutput dir pfx d ⟨true, env⟩).2.2.2.1 = none ∧
    (newSplitOutput dir pfx d ⟨true, env⟩).2.2.2.2 = true := by
  refine ⟨hasOpenHandle_openFiles_fail _ d env herr, ?_, ?_⟩ <;>
    simp [newSplitOutput, openFilesErr] at herr ⊢ <;> simp [herr]

/-- Witness for C5 at a concrete construction failure: the error-file open
fails; the info and warn handles opened moments earlier are closed again,
and the constructor returns nil with the error. -/
theorem construction_failure_leaks_nothing_witness :
    openFilesErr ⟨"logs", "app", none, none, none⟩ ⟨2024, 3, 8⟩ ⟨some 0, some 1, none⟩ = true ∧
    hasOpenHandle (openFilesState ⟨"logs", "app", none, none, none⟩ ⟨2024, 3, 8⟩
      ⟨some 0, some 1, none⟩) = false ∧
    (newSplitOutput "logs" "app" ⟨2024, 3, 8⟩ ⟨true, some 0, some 1, none⟩).2.2.2.1 = none :=
  ⟨by decide,
    (construction_failure_leaks_nothing "logs" "app" ⟨2024, 3, 8⟩
      ⟨some 0, some 1, none⟩ (by decide)).1,
    (construction_failure_leaks_nothing "logs" "app" ⟨2024, 3, 8⟩
      ⟨some 0, some 1, none⟩ (by decide)).2.1⟩

/-- C6 counterexample: a failed rotation does report to stderr and the
loop does continue, but subsequent writes do not land on last-known-good
handles: `openFiles` closed the previous handles before attempting the new
opens, so after the failure an info-severity write returns the
closed-handle I/O error instead of succeeding on the stale file. -/
theorem rotate_failure_stale_handles_closed :
    (rotateStep ⟨"logs", "app", some ⟨0, true⟩, some ⟨1, true⟩, some ⟨2, true⟩⟩
      ⟨2024, 3, 8⟩ ⟨none, none, none⟩).stderrReport = true ∧
    (rotateStep ⟨"logs", "app", some ⟨0, true⟩, some ⟨1, true⟩, some ⟨2, true⟩⟩
      ⟨2024, 3, 8⟩ ⟨none, none, none⟩).loopContinues = true ∧
    Write (rotateStep ⟨"logs", "app", some ⟨0, true⟩, some ⟨1, true⟩, some ⟨2, true⟩⟩
      ⟨2024, 3, 8⟩ ⟨none, none, none⟩).state infoLevel 5 = WriteResult.ioError := by
  refine ⟨?_, ?_, ?_⟩ <;> decide

/-- C6 (amended): when a rotation iteration's reopen fails, the error is
reported to stderr and the scheduler loop continues (no termination, no
crash); however, because `openFiles` closes the previous handles before
opening new ones, subsequent `Write` calls at every severity return
closed-handle I/O errors — not successful writes to day-stale handles —
until a later rotation succeeds. -/
theorem rotate_failure_contained_but_writes_error (s : SplitOutput) (d : LocalDate)
    (env : OpenEnv) (hs : allSome s = true) (herr : openFilesErr s d env = true) :
    (rotateStep s d env).stderrReport = true ∧
    (rotateStep s d env).loopContinues = true ∧
    ∀ (lvl : Int) (len : Nat),
      Write (rotateStep s d env).state lvl len = WriteResult.ioError := by
  refine ⟨herr, rfl, fun lvl len => ?_⟩
  exact Write_ioError_of_closed _ (allSome_openFiles_fail s d env hs herr)
    (hasOpenHandle_openFiles_fail s d env herr) lvl len

/-- Witness for C6 at a concrete failed rotation on a populated state. -/
theorem rotate_failure_contained_but_writes_error_witness :
    allSome ⟨"logs", "app", some ⟨0, true⟩, some ⟨1, true⟩, some ⟨2, true⟩⟩ = true ∧
    openFilesErr ⟨"logs", "app", some ⟨0, true⟩, some ⟨1, true⟩, some ⟨2, true⟩⟩
      ⟨2024, 3, 9⟩ ⟨none, none, none⟩ = true ∧
    Write (rotateStep ⟨"logs", "app", some ⟨0, true⟩, some ⟨1, true⟩, some ⟨2, true⟩⟩
      ⟨2024, 3, 9⟩ ⟨none, none, none⟩).state warnLevel 9 = WriteResult.ioError :=
  ⟨by decide, by decide,
    (rotate_failure_contained_but_writes_error _ ⟨2024, 3, 9⟩ ⟨none, none, none⟩
      (by decide) (by decide)).2.2 warnLevel 9⟩

/-- C7: `Close` is idempotent — a second `Close` after a completed first
one is a no-op on the state (re-closing already-closed handles changes
nothing and surfaces nothing) and again returns nil; there is no panic
path in the model, mirroring `os.File.Close` on a closed file returning
`os.ErrClosed` rather than faulting. -/
theorem Close_idempotent :
    ∀ s : SplitOutput, Close (Close s).1 = Close s ∧ (Close (Close s).1).2 = false := by
  intro s
  refine ⟨?_, rfl⟩
  unfold Close
  simp [closeFiles_idem]

/-- C8: a `Write` at any severity invoked after `Close` has completed on a
fully populated `SplitOutput` returns the closed-handle I/O error — it
neither panics on a nil writer nor silently reports success. -/
theorem Write_after_Close_ioError (s : SplitOutput) (hs : allSome s = true) :
    ∀ (lvl : Int) (len : Nat), Write (Close s).1 lvl len = WriteResult.ioError := by
  intro lvl len
  refine Write_ioError_of_closed _ ?_ ?_ lvl len
  · simpa [Close, allSome_closeFiles] using hs
  · simp [Close, hasOpenHandle_closeFiles]

/-- Witness for C8: a concrete open `SplitOutput`, closed, then written to
at info severity. -/
theorem Write_after_Close_ioError_witness :
    allSome ⟨"logs", "app", some ⟨0, true⟩, some ⟨1, true⟩, some ⟨2, true⟩⟩ = true ∧
    Write (Close ⟨"logs", "app", some ⟨0, true⟩, some ⟨1, true⟩, some ⟨2, true⟩⟩).1
      infoLevel 7 = WriteResult.ioError :=
  ⟨by decide, Write_after_Close_ioError _ (by decide) infoLevel 7⟩

/-- C9 (code-bug evidence): the sleep computed by `rotateDaily` does not
always equal the time to the next local midnight.  In `springForwardLoc`
(a 23-hour calendar day 1), at `now` = minute 1410 — local time 23:30 on
day 0 — the next local midnight is 30 minutes away, but adding 24 hours
lands at civil 00:30 of day 2, so the code truncates to day 2's midnight
and computes a 1410-minute sleep: the midnight that starts day 1 is
skipped, and no rotation happens for that calendar day. -/
theorem rotateSleep_dst_failing_input :
    springForwardLoc.toCivil 1410 = 1410 ∧
    rotateSleep springForwardLoc 1410 = 1410 ∧
    timeToNextLocalMidnight springForwardLoc 1410 = 30 := by
  refine ⟨?_, ?_, ?_⟩ <;> decide

/-- Sanity check for the C9 model: in every fixed-offset timezone (no DST
transition in the window) the computed sleep is exactly the time to the
next local midnight, for every instant. -/
theorem rotateSleep_fixed_offset (k now : Int) :
    rotateSleep (fixedLoc k) now = timeToNextLocalMidnight (fixedLoc k) now := by
  have hf : ∀ a : Int, a.fdiv 1440 = a / 1440 := fun a => Int.fdiv_eq_ediv a (by norm_num)
  simp only [rotateSleep, timeToNextLocalMidnight, fixedLoc, minutesPerDay, hf]
  omega

/-- C10: `Close` returns nil in every state: the per-handle close errors
that `closeFiles` discards are never surfaced through `Close`'s error
result — here a state whose three handles are all already closed, where
every discarded `Close()` call reports `os.ErrClosed`, still yields nil. -/
theorem Close_always_returns_nil :
    (∀ s : SplitOutput, Close s = (closeFiles s, false)) ∧
    closeFilesErrors ⟨"logs", "app", some ⟨0, false⟩, some ⟨1, false⟩, some ⟨2, false⟩⟩ =
      [true, true, true] ∧
    (Close ⟨"logs", "app", some ⟨0, false⟩, some ⟨1, false⟩, some ⟨2, false⟩⟩).2 = false :=
  ⟨fun _ => rfl, by decide, rfl⟩

end Zlogger
